import Mathlib

/-!
Shallow embedding of the Watermark_APP core modules:
  - core/exporter.py      (compose_watermark_on_image)
  - core/watermark.py     (create_text_watermark_image)
  - core/batch_worker.py  (ensure_output_path, batch_export)
Pillow calls (decode, font loading, text measurement) are modelled as
explicit function parameters; machine behaviour the code computes
(placement arithmetic, canvas sizes, draw order, path strings, result
lists) is embedded directly from the source.
-/

namespace WatermarkApp

/-- Python `int(q * n)` for a rational `q` and a machine integer `n`:
the exact product truncated toward zero
(`Int.tdiv` is division rounding toward zero, as Python `int()` does). -/
def pyIntMul (q : ℚ) (n : Nat) : Int := Int.tdiv (q.num * n) q.den

/-- Case-folding of an ASCII format string, as `str.lower()` does. -/
def pyLower (s : String) : String := ⟨s.data.map Char.toLower⟩

/-- An RGBA colour tuple as used by Pillow. -/
structure RGBA where
  r : Nat
  g : Nat
  b : Nat
  a : Nat
deriving DecidableEq

/-! ## core/exporter.py -/

/-- Output encodings actually written by `compose_watermark_on_image`. -/
inductive OutFormat where
  | png
  | jpeg
deriving DecidableEq

/-- The only exception the compose pipeline itself models: the source
image cannot be decoded (`Image.open` / decode failure). -/
inductive ComposeError where
  | sourceDecodeError (path : String)
deriving DecidableEq

/-- Observable outcome of `compose_watermark_on_image`: where the
watermark layer's top-left was pasted, which encoder ran, and the pixel
size of the written image. -/
structure ComposeOutcome where
  dst_path : String
  pasteLeft : Int
  pasteTop : Int
  outFormat : OutFormat
  outWidth : Nat
  outHeight : Nat
  /-- the `quality=` argument handed to the JPEG encoder, if that branch ran -/
  jpegQuality : Option Nat
deriving DecidableEq

/-- `output_format.lower() in ('jpg', 'jpeg')`. -/
def fmtIsJpeg (fmt : String) : Bool :=
  pyLower fmt == "jpg" || pyLower fmt == "jpeg"

/-- Embedding of `compose_watermark_on_image` (core/exporter.py).
`decode` stands for `Image.open` + `exif_transpose` + `convert('RGBA')`,
returning the decoded pixel size or `none` when the source cannot be
decoded.  `wmW × wmH` is `watermark_img.size`. -/
def compose_watermark_on_image
    (decode : String → Option (Nat × Nat))
    (src_path dst_path : String)
    (wmW wmH : Nat)
    (anchor : ℚ × ℚ)
    (output_format : String)
    (jpeg_quality : Nat)
    (resize_to : Option (Nat × Nat)) : Except ComposeError ComposeOutcome :=
  match decode src_path with
  | none => .error (.sourceDecodeError src_path)
  | some (w0, h0) =>
    let iw := (resize_to.getD (w0, h0)).1
    let ih := (resize_to.getD (w0, h0)).2
    let center_x := pyIntMul anchor.1 iw
    let center_y := pyIntMul anchor.2 ih
    let left := center_x - (wmW / 2 : Nat)
    let top := center_y - (wmH / 2 : Nat)
    if fmtIsJpeg output_format then
      .ok ⟨dst_path, left, top, .jpeg, iw, ih, some jpeg_quality⟩
    else
      .ok ⟨dst_path, left, top, .png, iw, ih, none⟩

instance : DecidableEq (Except ComposeError ComposeOutcome) := fun a b =>
  match a, b with
  | .ok x, .ok y => decidable_of_iff (x = y) (by simp)
  | .error x, .error y => decidable_of_iff (x = y) (by simp)
  | .ok _, .error _ => isFalse (by simp)
  | .error _, .ok _ => isFalse (by simp)

/-! ## core/watermark.py -/

/-- Result of Pillow's `multiline_textbbox`: the ink bounding box of the
text measured with the given font and stroke width. -/
structure BBox where
  left : Int
  top : Int
  right : Int
  bottom : Int
deriving DecidableEq

/-- The draw calls `create_text_watermark_image` issues onto its canvas,
in execution order. -/
inductive DrawOp where
  /-- shadow pass: text drawn at `pos` with `fill`, then Gaussian-blurred
  with `blurRadius` and alpha-composited onto the canvas -/
  | shadow (pos : Int × Int) (fill : RGBA) (blurRadius : Nat)
  /-- direct main glyph draw (no bold/italic styling) -/
  | glyph (pos : Int × Int) (fill : RGBA) (strokeW : Nat) (strokeFill : RGBA)
  /-- bold/italic path: glyph drawn on a temp layer, optionally
  thickened by nine offset redraws and/or sheared, then composited -/
  | styledGlyph (pos : Int × Int) (fill : RGBA) (strokeW : Nat)
      (strokeFill : RGBA) (bold : Bool) (italic : Bool)
deriving DecidableEq

def DrawOp.isShadow : DrawOp → Bool
  | .shadow _ _ _ => true
  | _ => false

def DrawOp.pos : DrawOp → Int × Int
  | .shadow p _ _ => p
  | .glyph p _ _ _ => p
  | .styledGlyph p _ _ _ _ _ => p

/-- The rendered watermark layer: canvas geometry, the colour the canvas
was created with, and the draw calls applied to it in order. -/
structure WMResult where
  canvas_w : Int
  canvas_h : Int
  /-- fill colour of `Image.new("RGBA", ..., (0,0,0,0))` -/
  initFill : RGBA
  ops : List DrawOp
deriving DecidableEq

/-- The only failure path `create_text_watermark_image` has: the
`ImageFont.truetype` call raising (font file missing/unparsable). -/
inductive WMError where
  | fontLoadError (path : String)
deriving DecidableEq

/-- The body of `create_text_watermark_image` after the font is loaded:
measurement, canvas allocation, shadow pass, main glyph pass. -/
def renderBody
    (measure : String → Nat → Nat → BBox)
    (text : String)
    (font_size : Nat)
    (color : RGBA)
    (opacity : ℚ)
    (stroke_width : Nat)
    (stroke_fill : RGBA)
    (shadow_offset : Int × Int)
    (shadow_blur : Nat)
    (bold : Bool)
    (italic : Bool) : WMResult :=
  let bbox := measure text font_size stroke_width
  let w := bbox.right - bbox.left
  let h := bbox.bottom - bbox.top
  let canvas_w := w + (shadow_offset.1.natAbs : Int) + (stroke_width * 4 : Nat)
  let canvas_h := h + (shadow_offset.2.natAbs : Int) + (stroke_width * 4 : Nat)
  let pad : Int := stroke_width
  let x := pad
  let y := pad - pyIntMul (mkRat 2 10) font_size
  let fill_color : RGBA := ⟨color.r, color.g, color.b, (pyIntMul opacity 255).toNat⟩
  let shadowOps : List DrawOp :=
    if 0 < shadow_blur then
      [ .shadow (x + shadow_offset.1, y + shadow_offset.2)
          ⟨stroke_fill.r, stroke_fill.g, stroke_fill.b,
            (pyIntMul (mkRat 7 10) 255).toNat⟩
          shadow_blur ]
    else []
  let mainOp : DrawOp :=
    if bold || italic then
      .styledGlyph (x, y) fill_color stroke_width stroke_fill bold italic
    else
      .glyph (x, y) fill_color stroke_width stroke_fill
  ⟨canvas_w, canvas_h, ⟨0, 0, 0, 0⟩, shadowOps ++ [mainOp]⟩

/-- Embedding of `create_text_watermark_image` (core/watermark.py).
`fontLoads p` tells whether `ImageFont.truetype(p, font_size)` succeeds;
`measure text font_size stroke_width` stands for
`draw.multiline_textbbox((0,0), text, font=font, stroke_width=...)`. -/
def create_text_watermark_image
    (fontLoads : String → Bool)
    (measure : String → Nat → Nat → BBox)
    (text : String)
    (font_path : Option String)
    (font_size : Nat)
    (color : RGBA)
    (opacity : ℚ)
    (stroke_width : Nat)
    (stroke_fill : RGBA)
    (shadow_offset : Int × Int)
    (shadow_blur : Nat)
    (bold : Bool)
    (italic : Bool) : Except WMError WMResult :=
  match font_path with
  | some p =>
    if fontLoads p then
      .ok (renderBody measure text font_size color opacity stroke_width
        stroke_fill shadow_offset shadow_blur bold italic)
    else
      .error (.fontLoadError p)
  | none =>
    .ok (renderBody measure text font_size color opacity stroke_width
      stroke_fill shadow_offset shadow_blur bold italic)

/-! ## core/batch_worker.py -/

/-- Split a character list at every occurrence of `c`. -/
def splitChar (c : Char) (cs : List Char) : List (List Char) :=
  cs.foldr
    (fun a acc => if a == c then [] :: acc else (a :: acc.headD []) :: acc.tail)
    [[]]

/-- The final path component, as `pathlib.PurePath.name`. -/
def lastComponent (p : String) : List Char :=
  (splitChar '/' p.data).getLastD []

/-- Index of the last '.' in a name, if any. -/
def lastDotIdx (cs : List Char) : Option Nat :=
  ((List.range cs.length).filter (fun i => cs.getD i ' ' == '.')).getLast?

/-- pathlib's stem/suffix split of a file name: the suffix starts at the
last dot, provided that dot is neither the first nor the last character. -/
def stemSuffixSplit (cs : List Char) : List Char × List Char :=
  match lastDotIdx cs with
  | some i => if 0 < i ∧ i < cs.length - 1 then (cs.take i, cs.drop i) else (cs, [])
  | none => (cs, [])

/-- `pathlib.Path(p).stem`. -/
def pyStem (p : String) : String := ⟨(stemSuffixSplit (lastComponent p)).1⟩

/-- `pathlib.Path(p).suffix`. -/
def pySuffix (p : String) : String := ⟨(stemSuffixSplit (lastComponent p)).2⟩

/-- `os.path.basename`-style final component of a path. -/
def baseName (p : String) : String := ⟨lastComponent p⟩

def digitChar (d : Nat) : Char := Char.ofNat (48 + d % 10)

def natToStrAux : Nat → Nat → List Char
  | 0, _ => []
  | fuel + 1, n =>
    if n < 10 then [digitChar n]
    else natToStrAux fuel (n / 10) ++ [digitChar (n % 10)]

/-- Python `str(i)` for a natural number. -/
def natToStr (n : Nat) : String := ⟨natToStrAux (n + 1) n⟩

/-- The `while dst.exists(): ...` loop of `ensure_output_path`, started at
counter `i`; `fuel` bounds the unrolling (the Python loop is unbounded,
but on a finite filesystem it terminates; `none` means fuel ran out). -/
def ensureLoop (fsExists : String → Bool) (mk : Nat → String) :
    Nat → Nat → Option String
  | 0, _ => none
  | fuel + 1, i =>
    if fsExists (mk i) then ensureLoop fsExists mk fuel (i + 1) else some (mk i)

/-- Embedding of `ensure_output_path` (core/batch_worker.py).
`fsExists` is `pathlib.Path.exists` — the filesystem state at call time.
`pfx`/`sfx` are the prefix/suffix string arguments of the source. -/
def ensure_output_path (fsExists : String → Bool)
    (src_path out_dir pfx sfx : String) (keep_name : Bool) (fuel : Nat) :
    Option String :=
  let name := if keep_name then pyStem src_path else pyStem src_path
  let ext := pySuffix src_path
  let first := out_dir ++ "/" ++ pfx ++ name ++ sfx ++ ext
  if fsExists first then
    ensureLoop fsExists
      (fun i => out_dir ++ "/" ++ pfx ++ name ++ sfx ++ "_" ++ natToStr i ++ ext)
      fuel 1
  else some first

/-- One batch task: the fields of the task dict that
`batch_export.worker` forwards to `compose_watermark_on_image`. -/
structure Task where
  src_path : String
  dst_path : String
  wmW : Nat
  wmH : Nat
  anchor : ℚ × ℚ
  output_format : String
  jpeg_quality : Nat
  resize_to : Option (Nat × Nat)

/-- The nested `worker` of `batch_export`: run the compose call, catch
any exception `e` and turn it into `(False, str(e))`.  `compose`
abstracts `compose_watermark_on_image` together with its runtime
environment; an `Except.error` is a raised exception with its `str(e)`. -/
def worker (compose : Task → Except String Unit) (t : Task) : Bool × String :=
  match compose t with
  | .ok _ => (true, "")
  | .error e => (false, e)

/-- `compose_watermark_on_image` as the per-task compose call of the
batch layer: it raises exactly when the source cannot be decoded, and
`msgOf` renders the raised exception's `str(e)`. -/
def runCompose (decode : String → Option (Nat × Nat))
    (msgOf : ComposeError → String) (t : Task) : Except String Unit :=
  match compose_watermark_on_image decode t.src_path t.dst_path t.wmW t.wmH
      t.anchor t.output_format t.jpeg_quality t.resize_to with
  | .ok _ => .ok ()
  | .error e => .error (msgOf e)

/-- What a `batch_export` run produced: the `results` list and the
`(i, total, success, message)` tuples passed to `progress_callback`. -/
structure BatchOutput where
  results : List (Bool × String)
  events : List (Nat × Nat × Bool × String)
deriving DecidableEq

set_option linter.unusedVariables false in
/-- Embedding of `batch_export` (core/batch_worker.py).  The thread pool
is abstracted by `order`: the order in which `as_completed` yields the
submitted futures, a permutation of the task indices.  `max_workers`
only sets the pool size and does not enter the result computation.
`progress_given` is whether a `progress_callback` was passed. -/
def batch_export (compose : Task → Except String Unit) (tasks : List Task)
    (max_workers : Nat) (progress_given : Bool) (order : List Nat) :
    BatchOutput :=
  let total := tasks.length
  let completed := order.filterMap (fun idx => (tasks[idx]?).map (worker compose))
  ⟨completed,
    if progress_given then
      completed.enum.map (fun p => (p.1 + 1, total, p.2.1, p.2.2))
    else []⟩

/-- Character-list substring test (used to phrase "the message embeds
the base name"). -/
def isPrefAt : List Char → List Char → Bool
  | [], _ => true
  | _ :: _, [] => false
  | a :: as, b :: bs => a == b && isPrefAt as bs

def containsSub (needle hay : List Char) : Bool :=
  match hay with
  | [] => needle.isEmpty
  | _ :: t => isPrefAt needle hay || containsSub needle t

/-- Python `needle in hay` on strings. -/
def strContainsSub (hay needle : String) : Bool :=
  containsSub needle.data hay.data

/-! ## Helper lemmas -/

/-- Whatever `ensureLoop` returns was free on the filesystem. -/
theorem ensureLoop_fresh (fsExists : String → Bool) (mk : Nat → String) :
    ∀ (fuel i : Nat) (p : String), ensureLoop fsExists mk fuel i = some p →
      fsExists p = false := by
  intro fuel
  induction fuel with
  | zero => intro i p h; simp [ensureLoop] at h
  | succ n ih =>
    intro i p h
    unfold ensureLoop at h
    by_cases hc : fsExists (mk i) = true
    · rw [if_pos hc] at h
      exact ih (i + 1) p h
    · rw [if_neg hc] at h
      cases h
      exact Bool.not_eq_true _ |>.mp hc

/-- Whatever `ensure_output_path` returns was free on the filesystem. -/
theorem ensure_output_path_fresh (fsExists : String → Bool)
    (src_path out_dir pfx sfx : String) (keep_name : Bool) (fuel : Nat)
    (p : String)
    (h : ensure_output_path fsExists src_path out_dir pfx sfx keep_name fuel =
      some p) :
    fsExists p = false := by
  unfold ensure_output_path at h
  by_cases hc :
      fsExists (out_dir ++ "/" ++ pfx ++
        (if keep_name then pyStem src_path else pyStem src_path) ++ sfx ++
        pySuffix src_path) = true
  · rw [if_pos hc] at h
    exact ensureLoop_fresh _ _ _ _ _ h
  · rw [if_neg hc] at h
    cases h
    exact Bool.not_eq_true _ |>.mp hc

/-- Indexing a list by all positions in order recovers the mapped list. -/
theorem filterMap_get_range {α β : Type} (l : List α) (f : α → β) :
    (List.range l.length).filterMap (fun i => (l[i]?).map f) = l.map f := by
  induction l with
  | nil => simp
  | cons a t ih =>
    rw [List.length_cons, List.range_succ_eq_map, List.filterMap_cons]
    simp only [List.getElem?_cons_zero, Option.map_some, List.filterMap_map]
    rw [List.map_cons]
    have h2 : ((fun i => Option.map f (a :: t)[i]?) ∘ Nat.succ) =
        (fun i => Option.map f t[i]?) := by
      funext i
      simp
    rw [h2, ih]
    simp

/-- The results of a `batch_export` run are a permutation of the
per-task worker outcomes. -/
theorem batch_results_perm (compose : Task → Except String Unit)
    (tasks : List Task) (mw : Nat) (pg : Bool) (order : List Nat)
    (hperm : order.Perm (List.range tasks.length)) :
    (batch_export compose tasks mw pg order).results.Perm
      (tasks.map (worker compose)) := by
  have h1 : (batch_export compose tasks mw pg order).results =
      order.filterMap (fun idx => (tasks[idx]?).map (worker compose)) := rfl
  rw [h1]
  exact ((hperm.filterMap _).trans
    (by rw [filterMap_get_range tasks (worker compose)]))

/-- Splitting a count by a Boolean predicate. -/
theorem countP_bool_split {α : Type} (l : List α) (p : α → Bool) :
    l.countP p + l.countP (fun a => !(p a)) = l.length := by
  induction l with
  | nil => simp
  | cons a t ih =>
    rw [List.countP_cons, List.countP_cons, List.length_cons]
    cases h : p a <;> simp [h] <;> omega

/-- Python whitespace as `str.strip()` removes it. -/
def isPySpace (c : Char) : Bool :=
  c == ' ' || c == '\t' || c == '\n' || c == '\r'

/-! ## Claims -/

/-- C10: the `keep_name` parameter of `ensure_output_path` has no
effect — both branches bind the source stem, so for every filesystem
state and every argument list the `keep_name=True` call returns the same
path as the `keep_name=False` call. -/
theorem C10_keep_name_no_effect (fsExists : String → Bool)
    (src_path out_dir pfx sfx : String) (fuel : Nat) :
    ensure_output_path fsExists src_path out_dir pfx sfx true fuel =
      ensure_output_path fsExists src_path out_dir pfx sfx false fuel := rfl

/-- C6 counterexample: `ensure_output_path` never touches the
filesystem, so two sequential calls against the same state — primary
candidate `out/base.png` existing on disk — both return the very same
path `out/base_1.png`, contradicting "never returns the same path
twice". -/
theorem C6_same_path_twice :
    ((fun p => p == "out/base.png") "out/base.png" = true) ∧
    ensure_output_path (fun p => p == "out/base.png") "src/base.png" "out"
      "" "" true 5 = some "out/base_1.png" ∧
    ensure_output_path (fun p => p == "out/base.png") "src/base.png" "out"
      "" "" true 5 = some "out/base_1.png" := by decide

/-- C6 amended: the allocator is a pure function of the filesystem
state; the returned path is always free at call time, and a second call
returns a *different* path only when the first returned path has been
created on disk in between. -/
theorem C6_amended_allocator_pure (fs fs' : String → Bool)
    (src out pfx sfx : String) (keep : Bool) (fuel fuel' : Nat) (p q : String)
    (h1 : ensure_output_path fs src out pfx sfx keep fuel = some p)
    (hcreated : fs' p = true)
    (h2 : ensure_output_path fs' src out pfx sfx keep fuel' = some q) :
    q ≠ p ∧ fs p = false := by
  constructor
  · intro e
    have hq := ensure_output_path_fresh fs' src out pfx sfx keep fuel' q h2
    rw [e, hcreated] at hq
    cases hq
  · exact ensure_output_path_fresh fs src out pfx sfx keep fuel p h1

theorem C6_amended_witness :
    (ensure_output_path (fun p => p == "out/base.png") "src/base.png" "out"
      "" "" true 5 = some "out/base_1.png") ∧
    ((fun p => p == "out/base.png" || p == "out/base_1.png")
      "out/base_1.png" = true) ∧
    (ensure_output_path (fun p => p == "out/base.png" || p == "out/base_1.png")
      "src/base.png" "out" "" "" true 5 = some "out/base_2.png") ∧
    ("out/base_2.png" ≠ "out/base_1.png" ∧
      (fun p => p == "out/base.png") "out/base_1.png" = false) :=
  ⟨by decide, by decide, by decide,
    C6_amended_allocator_pure (fun p => p == "out/base.png")
      (fun p => p == "out/base.png" || p == "out/base_1.png")
      "src/base.png" "out" "" "" true 5 5 "out/base_1.png" "out/base_2.png"
      (by decide) (by decide) (by decide)⟩

/-- C5 counterexample: a job whose compose call raises an exception with
message "boom" produces the result `(False, "boom")` — `batch_export`
returns `str(e)` verbatim, which does not embed the source file's base
name `photo.png` (nor the stem `photo`). -/
theorem C5_message_lacks_basename :
    batch_export (fun _ => Except.error "boom")
      [⟨"dir/photo.png", "out/photo.png", 4, 4, (mkRat 1 2, mkRat 1 2),
        "png", 90, none⟩] 2 true [0] =
      ⟨[(false, "boom")], [(1, 1, false, "boom")]⟩ ∧
    baseName "dir/photo.png" = "photo.png" ∧
    strContainsSub "boom" (baseName "dir/photo.png") = false ∧
    strContainsSub "boom" (pyStem "dir/photo.png") = false := by decide

/-- C5 amended: the failed result entry carries exactly the raised
exception's own message (`str(e)`); `worker` adds nothing to it, so the
source base name appears only if the exception message happens to
contain it. -/
theorem C5_amended_message_is_str_e (compose : Task → Except String Unit)
    (t : Task) (e : String) (h : compose t = Except.error e) :
    worker compose t = (false, e) := by
  simp [worker, h]

theorem C5_amended_witness :
    ((fun _ : Task => (Except.error "boom" : Except String Unit))
      ⟨"dir/photo.png", "out/photo.png", 4, 4, (mkRat 1 2, mkRat 1 2),
        "png", 90, none⟩ = Except.error "boom") ∧
    worker (fun _ => (Except.error "boom" : Except String Unit))
      ⟨"dir/photo.png", "out/photo.png", 4, 4, (mkRat 1 2, mkRat 1 2),
        "png", 90, none⟩ = (false, "boom") :=
  ⟨rfl, C5_amended_message_is_str_e _ _ "boom" rfl⟩

/-- C2 counterexample: with `output_format="bmp"` — neither PNG nor
JPEG — `compose_watermark_on_image` does not fail: it falls into the
`else` branch and writes the file as PNG.  No `UnsupportedFormatError`
exists in the code. -/
theorem C2_bmp_written_as_png :
    compose_watermark_on_image (fun _ => some (10, 10)) "src.png" "dst.bmp"
        4 4 (mkRat 1 2, mkRat 1 2) "bmp" 90 none =
      Except.ok ⟨"dst.bmp", 3, 3, OutFormat.png, 10, 10, none⟩ ∧
    fmtIsJpeg "bmp" = false ∧ (pyLower "bmp" == "png") = false := by decide

/-- C2 amended: any `output_format` outside `('jpg','jpeg')` is treated
as PNG — for every decodable source the call succeeds and writes a PNG
file; it never raises a format error. -/
theorem C2_amended_non_jpeg_saved_as_png
    (decode : String → Option (Nat × Nat)) (src dst : String) (wmW wmH : Nat)
    (anchor : ℚ × ℚ) (fmt : String) (jq : Nat) (rt : Option (Nat × Nat))
    (w0 h0 : Nat) (hdec : decode src = some (w0, h0))
    (hfmt : fmtIsJpeg fmt = false) :
    ∃ r, compose_watermark_on_image decode src dst wmW wmH anchor fmt jq rt =
        Except.ok r ∧ r.outFormat = OutFormat.png := by
  unfold compose_watermark_on_image
  rw [hdec]
  simp only [hfmt, Bool.false_eq_true, if_false]
  exact ⟨_, rfl, rfl⟩

theorem C2_amended_witness :
    ((fun _ : String => some ((10, 10) : Nat × Nat)) "src.png" =
      some (10, 10)) ∧
    fmtIsJpeg "bmp" = false ∧
    (∃ r, compose_watermark_on_image (fun _ => some (10, 10)) "src.png"
        "dst.bmp" 4 4 (mkRat 1 2, mkRat 1 2) "bmp" 90 none = Except.ok r ∧
      r.outFormat = OutFormat.png) :=
  ⟨rfl, by decide,
    C2_amended_non_jpeg_saved_as_png (fun _ => some (10, 10)) "src.png"
      "dst.bmp" 4 4 (mkRat 1 2, mkRat 1 2) "bmp" 90 none 10 10 rfl (by decide)⟩

/-- C1 counterexample: `create_text_watermark_image` has no emptiness
check — called with empty or whitespace-only text (and a loadable font)
it returns a rendered layer instead of failing; no `EmptyTextError`
exists in the code. -/
theorem C1_render_accepts_empty_text :
    (create_text_watermark_image (fun _ => true) (fun _ _ _ => ⟨0, 0, 0, 0⟩)
        "" (some "font.ttf") 64 ⟨255, 255, 255, 255⟩ (mkRat 1 2) 2
        ⟨0, 0, 0, 255⟩ (2, 2) 4 false false).isOk = true ∧
    (create_text_watermark_image (fun _ => true) (fun _ _ _ => ⟨0, 0, 0, 0⟩)
        "   " (some "font.ttf") 64 ⟨255, 255, 255, 255⟩ (mkRat 1 2) 2
        ⟨0, 0, 0, 255⟩ (2, 2) 4 false false).isOk = true := by decide

set_option linter.unusedVariables false in
/-- C1 amended: for empty or whitespace-only text the renderer does not
fail — provided the font loads, it returns the rendered layer produced
by the ordinary drawing pipeline (the only failure path is the font
load). -/
theorem C1_amended_no_empty_check (fontLoads : String → Bool)
    (measure : String → Nat → Nat → BBox) (text : String) (p : String)
    (font_size : Nat) (color : RGBA) (opacity : ℚ) (stroke_width : Nat)
    (stroke_fill : RGBA) (shadow_offset : Int × Int) (shadow_blur : Nat)
    (bold italic : Bool)
    (htext : text.data.all isPySpace = true)
    (hfont : fontLoads p = true) :
    create_text_watermark_image fontLoads measure text (some p) font_size
        color opacity stroke_width stroke_fill shadow_offset shadow_blur bold
        italic =
      Except.ok (renderBody measure text font_size color opacity stroke_width
        stroke_fill shadow_offset shadow_blur bold italic) := by
  simp [create_text_watermark_image, hfont]

theorem C1_amended_witness :
    ("".data.all isPySpace = true) ∧
    ((fun _ : String => true) "font.ttf" = true) ∧
    create_text_watermark_image (fun _ => true) (fun _ _ _ => ⟨0, 0, 0, 0⟩)
        "" (some "font.ttf") 64 ⟨255, 255, 255, 255⟩ (mkRat 1 2) 2
        ⟨0, 0, 0, 255⟩ (2, 2) 4 false false =
      Except.ok (renderBody (fun _ _ _ => ⟨0, 0, 0, 0⟩) "" 64
        ⟨255, 255, 255, 255⟩ (mkRat 1 2) 2 ⟨0, 0, 0, 255⟩ (2, 2) 4
        false false) :=
  ⟨by decide, rfl,
    C1_amended_no_empty_check (fun _ => true) (fun _ _ _ => ⟨0, 0, 0, 0⟩)
      "" "font.ttf" 64 ⟨255, 255, 255, 255⟩ (mkRat 1 2) 2 ⟨0, 0, 0, 255⟩
      (2, 2) 4 false false (by decide) rfl⟩

/-- Canvas geometry of the rendered body, shared by the render claims. -/
theorem renderBody_canvas (measure : String → Nat → Nat → BBox)
    (text : String) (font_size : Nat) (color : RGBA) (opacity : ℚ)
    (stroke_width : Nat) (stroke_fill : RGBA) (shadow_offset : Int × Int)
    (shadow_blur : Nat) (bold italic : Bool) :
    (renderBody measure text font_size color opacity stroke_width stroke_fill
        shadow_offset shadow_blur bold italic).canvas_w =
      ((measure text font_size stroke_width).right -
        (measure text font_size stroke_width).left) +
        (shadow_offset.1.natAbs : Int) + 4 * (stroke_width : Int) ∧
    (renderBody measure text font_size color opacity stroke_width stroke_fill
        shadow_offset shadow_blur bold italic).canvas_h =
      ((measure text font_size stroke_width).bottom -
        (measure text font_size stroke_width).top) +
        (shadow_offset.2.natAbs : Int) + 4 * (stroke_width : Int) ∧
    (renderBody measure text font_size color opacity stroke_width stroke_fill
        shadow_offset shadow_blur bold italic).initFill = ⟨0, 0, 0, 0⟩ := by
  refine ⟨?_, ?_, rfl⟩ <;>
    · show _ + (_ : Int) + ((_ * 4 : Nat) : Int) = _
      push_cast
      ring

set_option linter.unusedVariables false in
/-- C8: the returned canvas is `ink width + |shadow_offset.x| +
4*stroke_width` wide and `ink height + |shadow_offset.y| +
4*stroke_width` tall (ink box measured with the stroke-width inflation),
and it is created fully transparent before any drawing. -/
theorem C8_canvas_dimensions (fontLoads : String → Bool)
    (measure : String → Nat → Nat → BBox) (text : String)
    (font_path : Option String) (font_size : Nat) (color : RGBA)
    (opacity : ℚ) (stroke_width : Nat) (stroke_fill : RGBA)
    (shadow_offset : Int × Int) (shadow_blur : Nat) (bold italic : Bool)
    (hfont : ∀ p, font_path = some p → fontLoads p = true) :
    ∃ r, create_text_watermark_image fontLoads measure text font_path
        font_size color opacity stroke_width stroke_fill shadow_offset
        shadow_blur bold italic = Except.ok r ∧
      r.canvas_w = ((measure text font_size stroke_width).right -
          (measure text font_size stroke_width).left) +
          (shadow_offset.1.natAbs : Int) + 4 * (stroke_width : Int) ∧
      r.canvas_h = ((measure text font_size stroke_width).bottom -
          (measure text font_size stroke_width).top) +
          (shadow_offset.2.natAbs : Int) + 4 * (stroke_width : Int) ∧
      r.initFill = ⟨0, 0, 0, 0⟩ := by
  have hc := renderBody_canvas measure text font_size color opacity
    stroke_width stroke_fill shadow_offset shadow_blur bold italic
  cases font_path with
  | none => exact ⟨_, rfl, hc⟩
  | some p =>
    refine ⟨_, ?_, hc⟩
    simp [create_text_watermark_image, hfont p rfl]

theorem C8_witness :
    (∀ p : String, (some "font.ttf" : Option String) = some p →
      (fun _ : String => true) p = true) ∧
    (∃ r, create_text_watermark_image (fun _ => true)
        (fun _ _ _ => ⟨0, 0, 3, 5⟩) "hi" (some "font.ttf") 64
        ⟨255, 255, 255, 255⟩ (mkRat 1 2) 2 ⟨0, 0, 0, 255⟩ (2, 2) 4 false
        false = Except.ok r ∧
      r.canvas_w = (((fun _ _ _ => (⟨0, 0, 3, 5⟩ : BBox)) "hi" 64 2).right -
          ((fun _ _ _ => (⟨0, 0, 3, 5⟩ : BBox)) "hi" 64 2).left) +
          (((2 : Int), (2 : Int)).1.natAbs : Int) + 4 * ((2 : Nat) : Int) ∧
      r.canvas_h = (((fun _ _ _ => (⟨0, 0, 3, 5⟩ : BBox)) "hi" 64 2).bottom -
          ((fun _ _ _ => (⟨0, 0, 3, 5⟩ : BBox)) "hi" 64 2).top) +
          (((2 : Int), (2 : Int)).2.natAbs : Int) + 4 * ((2 : Nat) : Int) ∧
      r.initFill = ⟨0, 0, 0, 0⟩) :=
  ⟨fun p h => by cases h; rfl,
    C8_canvas_dimensions (fun _ => true) (fun _ _ _ => ⟨0, 0, 3, 5⟩) "hi"
      (some "font.ttf") 64 ⟨255, 255, 255, 255⟩ (mkRat 1 2) 2 ⟨0, 0, 0, 255⟩
      (2, 2) 4 false false (fun p h => by cases h; rfl)⟩

/-- Draw-call order of the rendered body, shared by the render claims. -/
theorem renderBody_ops (measure : String → Nat → Nat → BBox)
    (text : String) (font_size : Nat) (color : RGBA) (opacity : ℚ)
    (stroke_width : Nat) (stroke_fill : RGBA) (shadow_offset : Int × Int)
    (shadow_blur : Nat) (bold italic : Bool) :
    (0 < shadow_blur →
      ∃ gx gy mainOp,
        (renderBody measure text font_size color opacity stroke_width
            stroke_fill shadow_offset shadow_blur bold italic).ops =
          [DrawOp.shadow (gx + shadow_offset.1, gy + shadow_offset.2)
            ⟨stroke_fill.r, stroke_fill.g, stroke_fill.b,
              (pyIntMul (mkRat 7 10) 255).toNat⟩ shadow_blur, mainOp] ∧
        mainOp.pos = (gx, gy) ∧ mainOp.isShadow = false) ∧
    (shadow_blur = 0 →
      ∃ mainOp,
        (renderBody measure text font_size color opacity stroke_width
            stroke_fill shadow_offset shadow_blur bold italic).ops =
          [mainOp] ∧ mainOp.isShadow = false) := by
  constructor
  · intro hpos
    refine ⟨(stroke_width : Int),
      (stroke_width : Int) - pyIntMul (mkRat 2 10) font_size, ?_⟩
    by_cases hbi : (bold || italic) = true
    · exact ⟨.styledGlyph ((stroke_width : Int),
          (stroke_width : Int) - pyIntMul (mkRat 2 10) font_size)
          ⟨color.r, color.g, color.b, (pyIntMul opacity 255).toNat⟩
          stroke_width stroke_fill bold italic,
        by simp [renderBody, hpos, hbi], rfl, rfl⟩
    · exact ⟨.glyph ((stroke_width : Int),
          (stroke_width : Int) - pyIntMul (mkRat 2 10) font_size)
          ⟨color.r, color.g, color.b, (pyIntMul opacity 255).toNat⟩
          stroke_width stroke_fill,
        by simp [renderBody, hpos, hbi], rfl, rfl⟩
  · intro hzero
    have hns : ¬ 0 < shadow_blur := by omega
    by_cases hbi : (bold || italic) = true
    · exact ⟨.styledGlyph ((stroke_width : Int),
          (stroke_width : Int) - pyIntMul (mkRat 2 10) font_size)
          ⟨color.r, color.g, color.b, (pyIntMul opacity 255).toNat⟩
          stroke_width stroke_fill bold italic,
        by simp [renderBody, hns, hbi], rfl⟩
    · exact ⟨.glyph ((stroke_width : Int),
          (stroke_width : Int) - pyIntMul (mkRat 2 10) font_size)
          ⟨color.r, color.g, color.b, (pyIntMul opacity 255).toNat⟩
          stroke_width stroke_fill,
        by simp [renderBody, hns, hbi], rfl⟩

/-- C9: when `shadow_blur > 0` the ops list starts with the shadow pass
— text drawn at the glyph position offset by `shadow_offset`, filled
with `stroke_color` at `int(255*0.7) = 178` alpha, Gaussian-blurred with
that radius — followed by the main glyph draw on top; when
`shadow_blur = 0` no shadow pass is constructed at all. -/
theorem C9_shadow_pass (fontLoads : String → Bool)
    (measure : String → Nat → Nat → BBox) (text : String)
    (font_path : Option String) (font_size : Nat) (color : RGBA)
    (opacity : ℚ) (stroke_width : Nat) (stroke_fill : RGBA)
    (shadow_offset : Int × Int) (shadow_blur : Nat) (bold italic : Bool)
    (hfont : ∀ p, font_path = some p → fontLoads p = true) :
    ∃ r, create_text_watermark_image fontLoads measure text font_path
        font_size color opacity stroke_width stroke_fill shadow_offset
        shadow_blur bold italic = Except.ok r ∧
      (0 < shadow_blur →
        ∃ gx gy mainOp,
          r.ops = [DrawOp.shadow (gx + shadow_offset.1, gy + shadow_offset.2)
            ⟨stroke_fill.r, stroke_fill.g, stroke_fill.b,
              (pyIntMul (mkRat 7 10) 255).toNat⟩ shadow_blur, mainOp] ∧
          mainOp.pos = (gx, gy) ∧ mainOp.isShadow = false) ∧
      (shadow_blur = 0 →
        ∃ mainOp, r.ops = [mainOp] ∧ mainOp.isShadow = false) ∧
      (pyIntMul (mkRat 7 10) 255).toNat = 178 := by
  have ho := renderBody_ops measure text font_size color opacity stroke_width
    stroke_fill shadow_offset shadow_blur bold italic
  cases font_path with
  | none => exact ⟨_, rfl, ho.1, ho.2, by decide⟩
  | some p =>
    refine ⟨_, ?_, ho.1, ho.2, by decide⟩
    simp [create_text_watermark_image, hfont p rfl]

theorem C9_witness :
    (∀ p : String, (some "font.ttf" : Option String) = some p →
      (fun _ : String => true) p = true) ∧
    (∃ r, create_text_watermark_image (fun _ => true)
        (fun _ _ _ => ⟨0, 0, 3, 5⟩) "hi" (some "font.ttf") 64
        ⟨255, 255, 255, 255⟩ (mkRat 1 2) 2 ⟨0, 0, 0, 255⟩ (2, 2) 4 false
        false = Except.ok r ∧
      (0 < 4 →
        ∃ gx gy mainOp,
          r.ops = [DrawOp.shadow (gx + ((2 : Int), (2 : Int)).1,
              gy + ((2 : Int), (2 : Int)).2)
            ⟨(⟨0, 0, 0, 255⟩ : RGBA).r, (⟨0, 0, 0, 255⟩ : RGBA).g,
              (⟨0, 0, 0, 255⟩ : RGBA).b,
              (pyIntMul (mkRat 7 10) 255).toNat⟩ 4, mainOp] ∧
          mainOp.pos = (gx, gy) ∧ mainOp.isShadow = false) ∧
      ((4 : Nat) = 0 →
        ∃ mainOp, r.ops = [mainOp] ∧ mainOp.isShadow = false) ∧
      (pyIntMul (mkRat 7 10) 255).toNat = 178) :=
  ⟨fun p h => by cases h; rfl,
    C9_shadow_pass (fun _ => true) (fun _ _ _ => ⟨0, 0, 3, 5⟩) "hi"
      (some "font.ttf") 64 ⟨255, 255, 255, 255⟩ (mkRat 1 2) 2 ⟨0, 0, 0, 255⟩
      (2, 2) 4 false false (fun p h => by cases h; rfl)⟩

set_option linter.unusedVariables false in
/-- C4: the watermark layer's top-left lands at
`(int(fx*W) - ww//2, int(fy*H) - wh//2)` — truncated center minus
floor-divided half-extents, no clamping — against the decoded and
optionally resized source size `(W,H)`, which is also the size the
output is written at. -/
theorem C4_placement_formula
    (decode : String → Option (Nat × Nat)) (src dst : String) (ww wh : Nat)
    (fx fy : ℚ) (fmt : String) (jq : Nat) (rt : Option (Nat × Nat))
    (w0 h0 : Nat) (hdec : decode src = some (w0, h0))
    (hfx0 : 0 ≤ fx) (hfx1 : fx ≤ 1) (hfy0 : 0 ≤ fy) (hfy1 : fy ≤ 1) :
    ∃ r, compose_watermark_on_image decode src dst ww wh (fx, fy) fmt jq rt =
        Except.ok r ∧
      r.pasteLeft = pyIntMul fx (rt.getD (w0, h0)).1 - ((ww / 2 : Nat) : Int) ∧
      r.pasteTop = pyIntMul fy (rt.getD (w0, h0)).2 - ((wh / 2 : Nat) : Int) ∧
      r.outWidth = (rt.getD (w0, h0)).1 ∧
      r.outHeight = (rt.getD (w0, h0)).2 := by
  unfold compose_watermark_on_image
  rw [hdec]
  by_cases hf : fmtIsJpeg fmt = true
  · simp only [hf, if_true]
    exact ⟨_, rfl, rfl, rfl, rfl, rfl⟩
  · have hf' : fmtIsJpeg fmt = false := Bool.not_eq_true _ |>.mp hf
    simp only [hf', Bool.false_eq_true, if_false]
    exact ⟨_, rfl, rfl, rfl, rfl, rfl⟩

theorem C4_witness :
    ((fun _ : String => some ((1000, 800) : Nat × Nat)) "photo.jpg" =
      some (1000, 800)) ∧
    (0 ≤ mkRat 9 10) ∧ (mkRat 9 10 ≤ 1) ∧
    pyIntMul (mkRat 9 10) 1000 = 900 ∧ pyIntMul (mkRat 9 10) 800 = 720 ∧
    (∃ r, compose_watermark_on_image (fun _ => some (1000, 800)) "photo.jpg"
        "out.png" 100 40 (mkRat 9 10, mkRat 9 10) "png" 90 none =
        Except.ok r ∧
      r.pasteLeft = pyIntMul (mkRat 9 10)
          ((none : Option (Nat × Nat)).getD (1000, 800)).1 -
          ((100 / 2 : Nat) : Int) ∧
      r.pasteTop = pyIntMul (mkRat 9 10)
          ((none : Option (Nat × Nat)).getD (1000, 800)).2 -
          ((40 / 2 : Nat) : Int) ∧
      r.outWidth = ((none : Option (Nat × Nat)).getD (1000, 800)).1 ∧
      r.outHeight = ((none : Option (Nat × Nat)).getD (1000, 800)).2) :=
  ⟨rfl, by decide, by decide, by decide, by decide,
    C4_placement_formula (fun _ => some (1000, 800)) "photo.jpg" "out.png"
      100 40 (mkRat 9 10) (mkRat 9 10) "png" 90 none 1000 800 rfl
      (by decide) (by decide) (by decide) (by decide)⟩

/-- C3: a batch of N jobs yields exactly N results and N progress
invocations; the results are a permutation of the per-task worker
outcomes, where any compose exception becomes a `(false, message)`
result without disturbing the other tasks — in particular, exactly one
failing compose call gives one `success=false` and N−1 `success=true`
results; and the exporter's compose call fails exactly on an
undecodable source. -/
theorem C3_batch_isolation (compose : Task → Except String Unit)
    (tasks : List Task) (mw : Nat) (order : List Nat)
    (hperm : order.Perm (List.range tasks.length)) :
    (batch_export compose tasks mw true order).results.length =
      tasks.length ∧
    (batch_export compose tasks mw true order).events.length =
      tasks.length ∧
    (batch_export compose tasks mw true order).results.Perm
      (tasks.map (worker compose)) ∧
    (∀ t e, compose t = Except.error e → worker compose t = (false, e)) ∧
    (tasks.countP (fun t => !(compose t).isOk) = 1 →
      (batch_export compose tasks mw true order).results.countP
        (fun r => !r.1) = 1 ∧
      (batch_export compose tasks mw true order).results.countP
        (fun r => r.1) = tasks.length - 1) ∧
    (∀ (decode : String → Option (Nat × Nat))
        (msgOf : ComposeError → String) (t : Task),
      (runCompose decode msgOf t).isOk = false ↔
        decode t.src_path = none) := by
  have key := batch_results_perm compose tasks mw true order hperm
  have hlen : (batch_export compose tasks mw true order).results.length =
      tasks.length := by
    rw [key.length_eq, List.length_map]
  have hfun : ((fun r : Bool × String => !r.1) ∘ worker compose) =
      (fun t => !(compose t).isOk) := by
    funext t
    cases h : compose t <;> simp [worker, h, Except.isOk, Except.toBool]
  have hev : (batch_export compose tasks mw true order).events =
      (batch_export compose tasks mw true order).results.enum.map
        (fun p => (p.1 + 1, tasks.length, p.2.1, p.2.2)) := rfl
  refine ⟨hlen, ?_, key, ?_, ?_, ?_⟩
  · rw [hev, List.length_map, List.enum_length, hlen]
  · intro t e h
    simp [worker, h]
  · intro hone
    have hcfail : (batch_export compose tasks mw true order).results.countP
        (fun r => !r.1) = 1 := by
      rw [key.countP_eq, List.countP_map, hfun, hone]
    have hsplit : (batch_export compose tasks mw true order).results.countP
          (fun r => r.1) +
        (batch_export compose tasks mw true order).results.countP
          (fun r => !r.1) =
        (batch_export compose tasks mw true order).results.length :=
      countP_bool_split _ _
    refine ⟨hcfail, ?_⟩
    omega
  · intro decode msgOf t
    unfold runCompose
    cases hd : decode t.src_path with
    | none =>
      simp [compose_watermark_on_image, hd, Except.isOk, Except.toBool]
    | some wh =>
      obtain ⟨w, h⟩ := wh
      by_cases hf : fmtIsJpeg t.output_format = true <;>
        simp [compose_watermark_on_image, hd, hf, Except.isOk, Except.toBool]

/-- Concrete two-job batch used to witness C3: the first task's source
is undecodable, the second composes fine. -/
def c3tasks : List Task :=
  [⟨"bad.png", "o1.png", 4, 4, (mkRat 1 2, mkRat 1 2), "png", 90, none⟩,
   ⟨"good.png", "o2.png", 4, 4, (mkRat 1 2, mkRat 1 2), "png", 90, none⟩]

def c3compose (t : Task) : Except String Unit :=
  if t.src_path == "bad.png" then Except.error "cannot identify image file"
  else Except.ok ()

theorem C3_witness :
    ([1, 0].Perm (List.range c3tasks.length)) ∧
    ((batch_export c3compose c3tasks 2 true [1, 0]).results.length =
      c3tasks.length ∧
    (batch_export c3compose c3tasks 2 true [1, 0]).events.length =
      c3tasks.length ∧
    (batch_export c3compose c3tasks 2 true [1, 0]).results.Perm
      (c3tasks.map (worker c3compose)) ∧
    (∀ t e, c3compose t = Except.error e →
      worker c3compose t = (false, e)) ∧
    (c3tasks.countP (fun t => !(c3compose t).isOk) = 1 →
      (batch_export c3compose c3tasks 2 true [1, 0]).results.countP
        (fun r => !r.1) = 1 ∧
      (batch_export c3compose c3tasks 2 true [1, 0]).results.countP
        (fun r => r.1) = c3tasks.length - 1) ∧
    (∀ (decode : String → Option (Nat × Nat))
        (msgOf : ComposeError → String) (t : Task),
      (runCompose decode msgOf t).isOk = false ↔
        decode t.src_path = none)) :=
  ⟨by decide, C3_batch_isolation c3compose c3tasks 2 [1, 0] (by decide)⟩

set_option linter.unusedVariables false in
/-- C7: the final result set does not depend on the worker-pool size or
on the order in which the futures complete — runs with any two positive
`max_workers` values produce permutations of each other (the same
multiset of `(success, message)` pairs). -/
theorem C7_concurrency_irrelevant (compose : Task → Except String Unit)
    (tasks : List Task) (o1 o2 : List Nat) (w1 w2 : Nat)
    (h1 : o1.Perm (List.range tasks.length))
    (h2 : o2.Perm (List.range tasks.length))
    (hw1 : 0 < w1) (hw2 : 0 < w2) :
    (batch_export compose tasks w1 true o1).results.Perm
      ((batch_export compose tasks w2 true o2).results) :=
  (batch_results_perm compose tasks w1 true o1 h1).trans
    (batch_results_perm compose tasks w2 true o2 h2).symm

/-- Concrete five-job batch used to witness C7. -/
def c7tasks : List Task :=
  [⟨"a.png", "oa.png", 4, 4, (mkRat 1 2, mkRat 1 2), "png", 90, none⟩,
   ⟨"b.png", "ob.png", 4, 4, (mkRat 1 2, mkRat 1 2), "png", 90, none⟩,
   ⟨"c.png", "oc.png", 4, 4, (mkRat 1 2, mkRat 1 2), "png", 90, none⟩,
   ⟨"d.png", "od.png", 4, 4, (mkRat 1 2, mkRat 1 2), "png", 90, none⟩,
   ⟨"e.png", "oe.png", 4, 4, (mkRat 1 2, mkRat 1 2), "jpeg", 90, none⟩]

theorem C7_witness :
    ([0, 1, 2, 3, 4].Perm (List.range c7tasks.length)) ∧
    ([4, 3, 2, 1, 0].Perm (List.range c7tasks.length)) ∧
    (0 < 1) ∧ (0 < 5) ∧
    (batch_export (fun _ => Except.ok ()) c7tasks 1 true
        [0, 1, 2, 3, 4]).results.Perm
      ((batch_export (fun _ => Except.ok ()) c7tasks 5 true
        [4, 3, 2, 1, 0]).results) :=
  ⟨by decide, by decide, by decide, by decide,
    C7_concurrency_irrelevant (fun _ => Except.ok ()) c7tasks
      [0, 1, 2, 3, 4] [4, 3, 2, 1, 0] 1 5 (by decide) (by decide)
      (by decide) (by decide)⟩

end WatermarkApp
